import Mathlib

/-!
Shallow embedding of `HiveToVW.py` (classes `HiveToVWInput` and `HiveCliHook`):
the namespace-grouping algorithm, the per-column SQL encoding rules, the query
assembly, the hive-CLI execution model and the top-level pipeline, together
with theorems settling the specification claims C1-C10.

External collaborators (the metastore schema answer, the hive subprocess, the
destination storage location, the OS-chosen temporary file name) enter the
embedding as explicit arguments, exactly at the interface boundary the spec
draws in its section 6.
-/

namespace HiveToVW

/-- A column of the source table: `(name, declared type)`, as produced by
`HiveMetastoreHook.get_table_schema` (the comment field is unused by the core). -/
abbrev Col := String × String

/-- The `nsgroups` dictionary: an insertion-ordered model of the Python dict
mapping a namespace name to the list of columns grouped under it. -/
abbrev Groups := List (String × List Col)

/-- Python `d.get(key)` (and `key in d`) on the insertion-ordered dict model. -/
def pyDictGet {α : Type} : List (String × α) → String → Option α
  | [], _ => none
  | (k, v) :: t, key => if k = key then some v else pyDictGet t key

/-- Python `d[key] = v`: replace the value of an existing key in place,
otherwise append the new binding at the end. -/
def dset {α : Type} : List (String × α) → String → α → List (String × α)
  | [], k, v => [(k, v)]
  | (k', v') :: t, k, v => if k' = k then (k, v) :: t else (k', v') :: dset t k v

/-- Python `nsgroups.get(ns, [])`. -/
def dget (m : Groups) (ns : String) : List Col := (pyDictGet m ns).getD []

/-- Python `sep.join(xs)`. -/
def joinSep (sep : String) : List String → String
  | [] => ""
  | [x] => x
  | x :: y :: t => x ++ sep ++ joinSep sep (y :: t)

/-- Accumulator-style model of Python `s.split('__')`: scan the text, cutting
at each leftmost, non-overlapping occurrence of two consecutive underscores. -/
def splitUUAux : List Char → List Char → List (List Char)
  | acc, [] => [acc.reverse]
  | acc, '_' :: '_' :: rest => acc.reverse :: splitUUAux [] rest
  | acc, ch :: rest => splitUUAux (ch :: acc) rest

/-- Python `cname.split('__')`, the double-delimiter naming-convention split used by
`get_ns_groups`. -/
def pySplitDunder (s : String) : List String := (splitUUAux [] s.data).map String.mk

/-- The configuration of one `HiveToVWInput` run: the constructor arguments as
stored on the instance. `__init__` always sets `self.dst_db = 'tmp'`, so the
destination database is the literal `"tmp"` wherever the source uses it. -/
structure HiveToVWInput where
  src_table : String
  dst_table_name : String
  label_column : String
  tag_column : String
  limit : Option Int
  filter_sql : Option String
  excludes : List String
  custom_namespaces : List (String × String)

/-- The namespace decision taken by the loop body of `get_ns_groups` for one
column name: `none` means the column is skipped (the branch whose body is the
no-op expression `next` adds it nowhere), otherwise the namespace whose list it
is appended to. -/
def assign (inp : HiveToVWInput) (cname : String) : Option String :=
  if cname ∈ inp.excludes ++ [inp.label_column, inp.tag_column] then none
  else
    match pyDictGet inp.custom_namespaces cname with
    | some ns => some ns
    | none =>
      if 2 < (pySplitDunder cname).length then some ((pySplitDunder cname).getD 1 "")
      else some "other"

/-- One iteration of the `for c in cols` loop of `get_ns_groups`:
`nsgroups[ns] = nsgroups.get(ns, []) + [(cname, ctype)]`. -/
def nsStep (inp : HiveToVWInput) (m : Groups) (c : Col) : Groups :=
  match assign inp c.1 with
  | none => m
  | some ns => dset m ns (dget m ns ++ [c])

/-- Model of `HiveToVWInput.get_ns_groups`: fold the loop body over the table schema,
starting from the empty dict. -/
def get_ns_groups (inp : HiveToVWInput) (cols : List Col) : Groups :=
  cols.foldl (nsStep inp) []

/-- Model of `HiveToVWInput.__col_sql`: the SQL encoding rule for one `(name, type)`
pair; `none` models the bare `raise NotImplementedError` taken for any
declared type without an encoding rule. -/
def col_sql (colname coltype : String) : Option String :=
  if coltype = "double" then
    some ("CASE WHEN COALESCE(CAST(" ++ colname ++ " AS DOUBLE),0.0) = 0.0 THEN '' ELSE CONCAT('"
      ++ colname ++ ":', PRINTF('%.2f', " ++ colname ++ "), ' ') END")
  else if coltype = "bigint" ∨ coltype = "int" then
    some ("CASE WHEN COALESCE(" ++ colname ++ ",0) = 0 THEN '' ELSE CONCAT('"
      ++ colname ++ ":', PRINTF('%d', " ++ colname ++ "), ' ') END")
  else if coltype = "boolean" then
    some ("CASE WHEN COALESCE(CAST(" ++ colname ++ " as int),0) = 0 THEN '' ELSE CONCAT('"
      ++ colname ++ ":', PRINTF('%d', CAST(" ++ colname ++ " as int)), ' ') END")
  else if coltype = "string" then
    some ("CASE WHEN COALESCE(" ++ colname ++ ",'') = '' THEN '' ELSE CONCAT(REGEXP_REPLACE("
      ++ colname
      ++ ", '[\\\\x00-\\\\x2a|\\\\x2c|\\\\x2f|\\\\x3a-\\\\x40|\\\\x5b-\\\\x5e|\\\\x60|\\\\x7b-\\\\x7f]', ''), ' ') END")
  else none

/-- The list comprehension `[self.__col_sql(c[0], c[1]) for c in cols]`, with
the `NotImplementedError` of any element propagating. -/
def col_sql_list : List Col → Option (List String)
  | [] => some []
  | c :: t =>
    match col_sql c.1 c.2 with
    | none => none
    | some s =>
      match col_sql_list t with
      | none => none
      | some l => some (s :: l)

/-- The `for ns, cols in namespaces.iteritems()` loop of `__col_ns`, building
the `featureset` list (iteration in the dict model's insertion order). -/
def featuresetOf : Groups → Option (List String)
  | [] => some []
  | (ns, cols) :: t =>
    match col_sql_list cols with
    | none => none
    | some fs =>
      match featuresetOf t with
      | none => none
      | some r => some (("\n'|" ++ ns ++ " '\n, " ++ joinSep "\n," fs) :: r)

/-- Model of `HiveToVWInput.__col_ns`. -/
def col_ns (namespaces : Groups) : Option String :=
  (featuresetOf namespaces).map (joinSep ",")

/-- The `sample` fragment of `__assemble_sql`:
`"AND {}".format(self.filter_sql) if self.filter_sql else ""` — under Python
truthiness both `None` and the empty string produce the empty fragment. -/
def pyFilterClause : Option String → String
  | some f => if f ≠ "" then "AND " ++ f else ""
  | none => ""

/-- Model of `HiveToVWInput.__assemble_sql`, with the namespace dict made an explicit
argument (the source reads it from `self.nsgroups`). -/
def assemble_sql (inp : HiveToVWInput) (nsg : Groups) : Option String :=
  match col_ns nsg with
  | none => none
  | some colns =>
    some ("\n            SELECT CONCAT(PRINTF('%.4f', COALESCE(" ++ inp.label_column
      ++ ", 0.0)), ' 1.0 ', " ++ inp.tag_column ++ ", " ++ colns
      ++ " )\n            FROM " ++ inp.src_table
      ++ "\n            WHERE ds > ''\n                AND " ++ inp.label_column
      ++ " IS NOT NULL\n                " ++ pyFilterClause inp.filter_sql
      ++ "\n            ")

/-- The `limit_sql` fragment of `gen_sql`:
`"LIMIT {}".format(self.limit) if self.limit else ""` — under Python truthiness
both `None` and `0` produce the empty fragment. -/
def pyLimitClause : Option Int → String
  | some n => if n ≠ 0 then "LIMIT " ++ toString n else ""
  | none => ""

/-- Model of `HiveToVWInput.gen_sql`, with the schema column list (the metastore answer
behind `self.nsgroups`) passed explicitly. -/
def gen_sql (inp : HiveToVWInput) (schemaCols : List Col) : Option String :=
  match assemble_sql inp (get_ns_groups inp schemaCols) with
  | none => none
  | some select_sql =>
    some ("\n            SET hive.exec.compress.output=false;\n            SET mapred.reduce.tasks=10;\n            INSERT OVERWRITE TABLE tmp."
      ++ inp.dst_table_name
      ++ "\n            " ++ select_sql ++ "\n            " ++ pyLimitClause inp.limit
      ++ "\n            ;\n        ")

/-- The DDL text built by `HiveToVWInput.create_dest_table`
(`self.dst_db` is always `"tmp"`). -/
def destTableSql (inp : HiveToVWInput) : String :=
  "\n        DROP TABLE IF EXISTS tmp." ++ inp.dst_table_name
    ++ ";\n        CREATE EXTERNAL TABLE tmp." ++ inp.dst_table_name
    ++ " (\n            input_line    STRING\n        )\n        STORED AS TEXTFILE\n        ;\n        "

/-- A character matched by the denylist character class of the `string` branch
of `__col_sql`: the regex class covers `\x00`-`\x2a`, `\x2c`, `\x2f`,
`\x3a`-`\x40`, `\x5b`-`\x5e`, `\x60` and `\x7b`-`\x7f` (the literal pipe
`\x7c`, written separately in the class, already lies in the final range). -/
def deniedChar (c : Char) : Prop :=
  c.val ≤ 0x2a ∨ c.val = 0x2c ∨ c.val = 0x2f ∨ (0x3a ≤ c.val ∧ c.val ≤ 0x40) ∨
    (0x5b ≤ c.val ∧ c.val ≤ 0x5e) ∨ c.val = 0x60 ∨ (0x7b ≤ c.val ∧ c.val ≤ 0x7f)

instance (c : Char) : Decidable (deniedChar c) :=
  decidable_of_iff
    (c.val ≤ 0x2a ∨ c.val = 0x2c ∨ c.val = 0x2f ∨ (0x3a ≤ c.val ∧ c.val ≤ 0x40) ∨
      (0x5b ≤ c.val ∧ c.val ≤ 0x5e) ∨ c.val = 0x60 ∨ (0x7b ≤ c.val ∧ c.val ≤ 0x7f))
    Iff.rfl

/-- Row-level semantics of `REGEXP_REPLACE(col, <denylist class>, '')`: every
denylisted character of the value is removed. -/
def stripDenied (s : String) : String :=
  String.mk (s.data.filter (fun c => !decide (deniedChar c)))

/-- Row-level semantics of the CASE expression `col_sql` emits for a `double`
column. The runtime value is `none` for SQL NULL; the engine builtin
`PRINTF('%.2f', _)` is abstracted as the `fmt2` argument. -/
def evalDoubleToken (fmt2 : ℚ → String) (colname : String) (v : Option ℚ) : String :=
  if v.getD 0 = 0 then "" else colname ++ ":" ++ fmt2 (v.getD 0) ++ " "

/-- Row-level semantics of the CASE expression `col_sql` emits for `bigint` and
`int` columns; `PRINTF('%d', n)` prints the integer in decimal. -/
def evalIntToken (colname : String) (v : Option Int) : String :=
  if v.getD 0 = 0 then "" else colname ++ ":" ++ toString (v.getD 0) ++ " "

/-- Row-level semantics of the CASE expression `col_sql` emits for a `boolean`
column: `CAST(b as int)` maps false to 0 and true to 1. -/
def evalBoolToken (colname : String) (v : Option Bool) : String :=
  let iv : Int := (v.map (fun b => if b then 1 else 0)).getD 0
  if iv = 0 then "" else colname ++ ":" ++ toString iv ++ " "

/-- Row-level semantics of the CASE expression `col_sql` emits for a `string`
column (note: no column-name prefix is emitted for text values). -/
def evalStringToken (v : Option String) : String :=
  if v.getD "" = "" then "" else stripDenied (v.getD "") ++ " "

/-- One event in the process log (`logging.info` / `logging.error`). -/
inductive LogEvent
  | info (msg : String)
  | error (msg : String)
deriving DecidableEq

/-- Filesystem events on the temporary query file. -/
inductive FsEvent
  | create (name : String)
  | delete (name : String)
deriving DecidableEq

instance {ε α : Type} [DecidableEq ε] [DecidableEq α] : DecidableEq (Except ε α) := fun x y =>
  match x, y with
  | Except.ok a, Except.ok b =>
    if h : a = b then Decidable.isTrue (by rw [h])
    else Decidable.isFalse (by intro hc; cases hc; exact h rfl)
  | Except.ok _, Except.error _ => Decidable.isFalse (by intro hc; cases hc)
  | Except.error _, Except.ok _ => Decidable.isFalse (by intro hc; cases hc)
  | Except.error e, Except.error f =>
    if h : e = f then Decidable.isTrue (by rw [h])
    else Decidable.isFalse (by intro hc; cases hc; exact h rfl)

/-- Outcome of one `HiveCliHook.run_cli` call: the log events, the
temporary-file events, and either the returned `stdout` string or a propagated
spawn exception (`subprocess.Popen` raising). -/
structure CliResult where
  logs : List LogEvent
  fs : List FsEvent
  ret : Except Unit String
deriving DecidableEq

/-- The `"USE {schema};\n{hql}"` prepending done when a schema is given. -/
def hqlWithSchema (hql : String) (schema : Option String) : String :=
  match schema with
  | some s => "USE " ++ s ++ ";\n" ++ hql
  | none => hql

/-- Python `s.strip()` applied to a streamed log line. -/
def pyStrip (s : String) : String :=
  String.mk (((s.data.dropWhile Char.isWhitespace).reverse.dropWhile Char.isWhitespace).reverse)

/-- Model of `HiveCliHook.run_cli`. The engine collaborator is a function from the query
text (the content of the temporary file) to either a spawn failure or the pair
(exit code, streamed output lines); `tmpName` is the OS-chosen name of the
`NamedTemporaryFile`. The `with` block brackets the whole call with
create/delete of the temporary file on both the normal and the exceptional
path; a non-zero exit code is logged at error level and swallowed, and only
the accumulated stdout string is returned. -/
def run_cli (hql0 : String) (schema : Option String) (verbose : Bool) (tmpName : String)
    (engine : String → Except Unit (Int × List String)) : CliResult :=
  let hql := hqlWithSchema hql0 schema
  let cmdLog := if verbose then [LogEvent.info ("hive -f " ++ tmpName)] else []
  match engine hql with
  | Except.error e =>
    { logs := cmdLog, fs := [FsEvent.create tmpName, FsEvent.delete tmpName],
      ret := Except.error e }
  | Except.ok (code, lines) =>
    let lineLogs := if verbose then lines.map (fun l => LogEvent.info (pyStrip l)) else []
    let errLogs :=
      if code ≠ 0 then
        [LogEvent.error "Problem when running:", LogEvent.error hql,
          LogEvent.error ("Command returned " ++ toString code)]
      else []
    { logs := cmdLog ++ lineLogs ++ errLogs,
      fs := [FsEvent.create tmpName, FsEvent.delete tmpName],
      ret := Except.ok (String.join lines) }

/-- Whether a file of the given name exists after replaying the event list. -/
def fileExistsAfter (events : List FsEvent) (name : String) : Bool :=
  events.foldl
    (fun b e =>
      match e with
      | FsEvent.create n => if n = name then true else b
      | FsEvent.delete n => if n = name then false else b)
    false

/-- Python exceptions that can escape `HiveToVWInput.run`. -/
inductive PyErr
  | notImplementedError
  | nameError (name : String)
  | osError
deriving DecidableEq

/-- Outcome of one `HiveToVWInput.run` call: the query texts handed to the
hive CLI in order, the accumulated log, and the Python outcome (`run` returns
`None`, so a normal return carries no value). -/
structure RunResult where
  queries : List String
  logs : List LogEvent
  result : Except PyErr Unit
deriving DecidableEq

/-- Model of `HiveToVWInput.run` (together with `create_dest_table`): create the
destination table, generate the materialization query, run it, then look up
the destination location (the metastore answer is the `destLoc` argument).
`create_dest_table` wraps its `run_cli` call in `try/except` whose handler
evaluates the unbound local `output`, so a spawn failure there surfaces as a
`NameError`; a non-zero hive exit code is swallowed inside `run_cli` and stops
nothing. -/
def pipelineRun (inp : HiveToVWInput) (schemaCols : List Col)
    (engine : String → Except Unit (Int × List String))
    (tmp1 tmp2 destLoc : String) : RunResult :=
  let ddl := destTableSql inp
  let r1 := run_cli ddl none true tmp1 engine
  let logs1 := LogEvent.info ddl :: r1.logs
  match r1.ret with
  | Except.error _ =>
    { queries := [ddl], logs := logs1, result := Except.error (PyErr.nameError "output") }
  | Except.ok _ =>
    match gen_sql inp schemaCols with
    | none => { queries := [ddl], logs := logs1, result := Except.error PyErr.notImplementedError }
    | some finalsql =>
      let r2 := run_cli finalsql none true tmp2 engine
      let logs2 := logs1 ++ [LogEvent.info finalsql] ++ r2.logs
      match r2.ret with
      | Except.error _ =>
        { queries := [ddl, finalsql], logs := logs2, result := Except.error PyErr.osError }
      | Except.ok out2 =>
        { queries := [ddl, finalsql],
          logs := logs2 ++
            [LogEvent.info out2,
              LogEvent.info ("You should be able to find your files at " ++ destLoc)],
          result := Except.ok () }

/-- The omission condition of `get_ns_groups`: the column is the label, the
tag, or explicitly excluded (`cname in self.excludes + [label, tag]`). -/
def omitted (inp : HiveToVWInput) (cname : String) : Prop :=
  cname ∈ inp.excludes ∨ cname = inp.label_column ∨ cname = inp.tag_column

instance (inp : HiveToVWInput) (cname : String) : Decidable (omitted inp cname) :=
  decidable_of_iff
    (cname ∈ inp.excludes ∨ cname = inp.label_column ∨ cname = inp.tag_column) Iff.rfl

/-- Substring relation on strings, used to state what the generated query text
contains. -/
def strContains (s sub : String) : Prop :=
  ∃ a b : String, s = a ++ (sub ++ b)

/-- Concrete example job (the spec's `sales.orders` scenario), used by witness
theorems. -/
def exInp : HiveToVWInput :=
  { src_table := "sales.orders"
    dst_table_name := "orders_vw"
    label_column := "converted"
    tag_column := "order_id"
    limit := none
    filter_sql := none
    excludes := []
    custom_namespaces := [] }

/-- The example schema for `exInp`. -/
def exCols : List Col :=
  [("amount", "double"), ("is_rush", "boolean"), ("region__geo__code", "string"),
    ("converted", "int"), ("order_id", "string")]

/-- Example job with a custom-namespace override that also matches the
double-delimiter naming convention. -/
def exInp4 : HiveToVWInput :=
  { exInp with custom_namespaces := [("region__geo__code", "override"), ("sibsp", "family")] }

/-- The example schema extended with a column of unsupported declared type. -/
def exColsBad : List Col := exCols ++ [("features", "struct<a:int>")]

/-- A second schema whose unsupported column has a different name and type. -/
def exColsBad2 : List Col := exCols ++ [("other_col", "map<string,int>")]

/-- An engine collaborator whose subprocess always succeeds. -/
def engineOk : String → Except Unit (Int × List String) := fun _ => Except.ok (0, ["OK\n"])

/-- An engine collaborator whose subprocess exits non-zero on the
destination-table DDL and succeeds on everything else. -/
def engineDdlFails : String → Except Unit (Int × List String) := fun q =>
  if q = destTableSql exInp then Except.ok (1, ["FAILED: Execution Error\n"])
  else Except.ok (0, ["OK\n"])

/-- The materialization query generated for the example job. -/
def exFinalSql : String := (gen_sql exInp exCols).getD ""

/-- The example job with a caller-supplied extra predicate and a row cap. -/
def exInp7 : HiveToVWInput :=
  { exInp with filter_sql := some "rand() < 0.1", limit := some 1000 }

/-- The feature expression generated for the example job's namespace groups. -/
def exColNs : String := (col_ns (get_ns_groups exInp exCols)).getD ""

/-! ## Lemmas about the dict model and the grouping fold -/

theorem pyDictGet_dset_self {α : Type} (m : List (String × α)) (k : String) (v : α) :
    pyDictGet (dset m k v) k = some v := by
  induction m with
  | nil => simp [dset, pyDictGet]
  | cons p t ih =>
    obtain ⟨k', v'⟩ := p
    by_cases h : k' = k
    · subst h; simp [dset, pyDictGet]
    · simp [dset, h, pyDictGet, ih]

theorem pyDictGet_dset_ne {α : Type} (m : List (String × α)) (k : String) (v : α)
    (ns : String) (h : ns ≠ k) : pyDictGet (dset m k v) ns = pyDictGet m ns := by
  induction m with
  | nil => simp [dset, pyDictGet, Ne.symm h]
  | cons p t ih =>
    obtain ⟨k', v'⟩ := p
    by_cases hk : k' = k
    · subst hk; simp [dset, pyDictGet, Ne.symm h]
    · by_cases h2 : k' = ns
      · subst h2; simp [dset, hk, pyDictGet]
      · simp [dset, hk, pyDictGet, h2, ih]

theorem dget_dset_self (m : Groups) (k : String) (v : List Col) :
    dget (dset m k v) k = v := by
  simp [dget, pyDictGet_dset_self]

theorem dget_dset_ne (m : Groups) (k : String) (v : List Col) (ns : String) (h : ns ≠ k) :
    dget (dset m k v) ns = dget m ns := by
  simp [dget, pyDictGet_dset_ne m k v ns h]

theorem mem_dset {α : Type} (m : List (String × α)) (k : String) (v : α)
    (p : String × α) (hp : p ∈ dset m k v) : p = (k, v) ∨ p ∈ m := by
  induction m with
  | nil => simpa [dset] using hp
  | cons q t ih =>
    obtain ⟨k', v'⟩ := q
    by_cases hk : k' = k
    · subst hk
      simp only [dset, if_pos rfl] at hp
      rcases List.mem_cons.mp hp with h1 | h2
      · exact Or.inl h1
      · exact Or.inr (List.mem_cons_of_mem _ h2)
    · simp only [dset, if_neg hk] at hp
      rcases List.mem_cons.mp hp with h1 | h2
      · exact Or.inr (h1 ▸ List.mem_cons_self _ _)
      · rcases ih h2 with h3 | h4
        · exact Or.inl h3
        · exact Or.inr (List.mem_cons_of_mem _ h4)

theorem pyDictGet_mem {α : Type} (m : List (String × α)) (ns : String) (l : α)
    (h : pyDictGet m ns = some l) : (ns, l) ∈ m := by
  induction m with
  | nil => simp [pyDictGet] at h
  | cons p t ih =>
    obtain ⟨k, v⟩ := p
    by_cases hk : k = ns
    · subst hk
      have hv : v = l := by simpa [pyDictGet] using h
      subst hv
      exact List.mem_cons_self _ _
    · simp only [pyDictGet, if_neg hk] at h
      exact List.mem_cons_of_mem _ (ih h)

theorem mem_append_label_tag_iff (inp : HiveToVWInput) (cname : String) :
    cname ∈ inp.excludes ++ [inp.label_column, inp.tag_column] ↔ omitted inp cname := by
  simp [omitted, List.mem_append]

theorem assign_eq_none_iff (inp : HiveToVWInput) (cname : String) :
    assign inp cname = none ↔ omitted inp cname := by
  unfold assign
  by_cases h : cname ∈ inp.excludes ++ [inp.label_column, inp.tag_column]
  · simp [h, (mem_append_label_tag_iff inp cname).mp h]
  · have h2 : ¬ omitted inp cname := fun ho => h ((mem_append_label_tag_iff inp cname).mpr ho)
    rw [if_neg h]
    cases hcn : pyDictGet inp.custom_namespaces cname with
    | none =>
      simp only [h2, iff_false]
      split <;> simp
    | some ns => simp [h2]

theorem entries_sound (inp : HiveToVWInput) (cols : List Col) :
    ∀ (m : Groups), (∀ p ∈ m, ∀ x ∈ p.2, assign inp x.1 = some p.1) →
      ∀ p ∈ cols.foldl (nsStep inp) m, ∀ x ∈ p.2, assign inp x.1 = some p.1 := by
  induction cols with
  | nil => intro m hm; simpa using hm
  | cons c cs ih =>
    intro m hm
    simp only [List.foldl_cons]
    apply ih
    intro p hp x hx
    unfold nsStep at hp
    cases ha : assign inp c.1 with
    | none => rw [ha] at hp; exact hm p hp x hx
    | some ns =>
      rw [ha] at hp
      rcases mem_dset _ _ _ _ hp with hpe | hpm
      · subst hpe
        rcases List.mem_append.mp hx with hx1 | hx2
        · cases hg : pyDictGet m ns with
          | none => simp [dget, hg] at hx1
          | some l =>
            exact hm _ (pyDictGet_mem _ _ _ hg) x (by simpa [dget, hg] using hx1)
        · have hxc : x = c := by simpa using hx2
          subst hxc
          exact ha
      · exact hm p hpm x hx

theorem dget_foldl (inp : HiveToVWInput) (cols : List Col) :
    ∀ (m : Groups) (ns : String),
      dget (cols.foldl (nsStep inp) m) ns
        = dget m ns ++ cols.filter (fun c => decide (assign inp c.1 = some ns)) := by
  induction cols with
  | nil => intro m ns; simp
  | cons c cs ih =>
    intro m ns
    simp only [List.foldl_cons]
    rw [ih]
    unfold nsStep
    cases ha : assign inp c.1 with
    | none => simp [List.filter_cons, ha]
    | some ns' =>
      by_cases hns : ns = ns'
      · subst hns
        rw [dget_dset_self]
        simp [List.filter_cons, ha, List.append_assoc]
      · rw [dget_dset_ne _ _ _ _ hns]
        simp [List.filter_cons, ha, Ne.symm hns]

theorem dget_get_ns_groups (inp : HiveToVWInput) (cols : List Col) (ns : String) :
    dget (get_ns_groups inp cols) ns
      = cols.filter (fun c => decide (assign inp c.1 = some ns)) := by
  have h := dget_foldl inp cols [] ns
  simpa [get_ns_groups, dget, pyDictGet] using h

/-! ## Claim theorems -/

/-- C1: every input column lands in exactly one namespace of the
`get_ns_groups` result — with its multiplicity in the input preserved, so no
column is duplicated or silently dropped — except that a column that is the
label column, the tag column, or a member of the exclusion set appears in no
namespace at all. -/
theorem C1_namespace_partition (inp : HiveToVWInput) (cols : List Col) (c : Col)
    (hmem : c ∈ cols) :
    (omitted inp c.1 → ∀ p ∈ get_ns_groups inp cols, ∀ t, (c.1, t) ∉ p.2)
    ∧ (¬ omitted inp c.1 →
        ∃ ns, assign inp c.1 = some ns
          ∧ List.count c (dget (get_ns_groups inp cols) ns) = List.count c cols
          ∧ 0 < List.count c (dget (get_ns_groups inp cols) ns)
          ∧ ∀ p ∈ get_ns_groups inp cols, (∃ t, (c.1, t) ∈ p.2) → p.1 = ns) := by
  constructor
  · intro ho p hp t hts
    have hs := entries_sound inp cols [] (by simp) p hp (c.1, t) hts
    rw [(assign_eq_none_iff inp c.1).mpr ho] at hs
    exact Option.noConfusion hs
  · intro ho
    have hne : assign inp c.1 ≠ none := fun h => ho ((assign_eq_none_iff inp c.1).mp h)
    obtain ⟨ns, hns⟩ := Option.ne_none_iff_exists'.mp hne
    have hcount : List.count c (dget (get_ns_groups inp cols) ns) = List.count c cols := by
      rw [dget_get_ns_groups, List.count_filter]
      simp [hns]
    refine ⟨ns, hns, hcount, ?_, ?_⟩
    · rw [hcount]
      exact List.count_pos_iff.mpr hmem
    · rintro p hp ⟨t, ht⟩
      have hs := entries_sound inp cols [] (by simp) p hp (c.1, t) ht
      rw [hns] at hs
      exact (Option.some.inj hs).symm

/-- Witness for C1 at the spec's example job: the column `amount` is neither
label, tag nor excluded, and is grouped exactly once. -/
theorem C1_witness :
    (("amount", "double") : Col) ∈ exCols
    ∧ ((omitted exInp "amount" → ∀ p ∈ get_ns_groups exInp exCols, ∀ t, ("amount", t) ∉ p.2)
      ∧ (¬ omitted exInp "amount" →
          ∃ ns, assign exInp "amount" = some ns
            ∧ List.count (("amount", "double") : Col) (dget (get_ns_groups exInp exCols) ns)
                = List.count (("amount", "double") : Col) exCols
            ∧ 0 < List.count (("amount", "double") : Col) (dget (get_ns_groups exInp exCols) ns)
            ∧ ∀ p ∈ get_ns_groups exInp exCols, (∃ t, ("amount", t) ∈ p.2) → p.1 = ns)) :=
  ⟨by decide, C1_namespace_partition exInp exCols ("amount", "double") (by decide)⟩

/-- C4: for a column that is not omitted, namespace assignment follows the
fixed precedence — a custom-namespace override always wins (in particular for
names that also split into more than two parts on the double delimiter), a
column matching only the naming convention gets the second component of the
split, and any remaining column gets the default namespace `"other"`. -/
theorem C4_assignment_precedence (inp : HiveToVWInput) (cname : String)
    (h : ¬ omitted inp cname) :
    (∀ ns, pyDictGet inp.custom_namespaces cname = some ns → assign inp cname = some ns)
    ∧ (pyDictGet inp.custom_namespaces cname = none →
        2 < (pySplitDunder cname).length →
        assign inp cname = some ((pySplitDunder cname).getD 1 ""))
    ∧ (pyDictGet inp.custom_namespaces cname = none →
        ¬ 2 < (pySplitDunder cname).length → assign inp cname = some "other") := by
  have hm : ¬ cname ∈ inp.excludes ++ [inp.label_column, inp.tag_column] :=
    fun hmem => h ((mem_append_label_tag_iff inp cname).mp hmem)
  refine ⟨?_, ?_, ?_⟩
  · intro ns hns
    unfold assign
    rw [if_neg hm, hns]
  · intro hnone hsplit
    unfold assign
    rw [if_neg hm, hnone]
    simp [hsplit]
  · intro hnone hsplit
    unfold assign
    rw [if_neg hm, hnone]
    simp [hsplit]

theorem strAppend_assoc (a b c : String) : a ++ b ++ c = a ++ (b ++ c) := by
  apply String.ext
  simp [String.data_append, List.append_assoc]

theorem stripDenied_data (s : String) :
    (stripDenied s).data = s.data.filter (fun c => !decide (deniedChar c)) := rfl

theorem stripDenied_append (s t : String) :
    stripDenied (s ++ t) = stripDenied s ++ stripDenied t := by
  apply String.ext
  rw [String.data_append, stripDenied_data, String.data_append, stripDenied_data,
    stripDenied_data, List.filter_append]

theorem stripDenied_idem (s : String) : stripDenied (stripDenied s) = stripDenied s := by
  apply String.ext
  rw [stripDenied_data, stripDenied_data, List.filter_filter]
  simp

theorem stripDenied_space : stripDenied " " = "" := by decide

theorem str_append_empty (s : String) : s ++ "" = s := by
  apply String.ext
  rw [String.data_append]
  simp

/-- C5: the encoding rule is a pure function of `(column name, declared type)`,
and the row-level semantics of the emitted CASE expressions implement zero/null
suppression for the three numeric/boolean types, emitting
`name:value` plus one trailing space otherwise (two decimal places for double
via the engine's `PRINTF('%.2f', _)`, decimal integers for int/bigint, and 0/1
for boolean). -/
theorem C5_type_encoder (name ty : String) (fmt2 : ℚ → String) :
    col_sql name ty = col_sql name ty
    ∧ (∀ v : Option ℚ, v = none ∨ v = some 0 → evalDoubleToken fmt2 name v = "")
    ∧ (∀ x : ℚ, x ≠ 0 → evalDoubleToken fmt2 name (some x) = name ++ ":" ++ fmt2 x ++ " ")
    ∧ (∀ v : Option Int, v = none ∨ v = some 0 → evalIntToken name v = "")
    ∧ (∀ n : Int, n ≠ 0 → evalIntToken name (some n) = name ++ ":" ++ toString n ++ " ")
    ∧ (∀ v : Option Bool, v = none ∨ v = some false → evalBoolToken name v = "")
    ∧ evalBoolToken name (some true) = name ++ ":" ++ toString (1 : Int) ++ " " := by
  refine ⟨rfl, ?_, ?_, ?_, ?_, ?_, ?_⟩
  · rintro v (rfl | rfl) <;> simp [evalDoubleToken]
  · intro x hx; simp [evalDoubleToken, hx]
  · rintro v (rfl | rfl) <;> simp [evalIntToken]
  · intro n hn; simp [evalIntToken, hn]
  · rintro v (rfl | rfl) <;> simp [evalBoolToken]
  · simp [evalBoolToken]

/-- Witness for C5: zero/null suppression and the emitted token at concrete
values of each of the three numeric/boolean types. -/
theorem C5_witness :
    ((some (0 : ℚ) = none ∨ some (0 : ℚ) = some 0)
      ∧ evalDoubleToken (fun _ => "0.00") "amount" (some 0) = "")
    ∧ ((5 : Int) ≠ 0
      ∧ evalIntToken "qty" (some 5) = "qty" ++ ":" ++ toString (5 : Int) ++ " ")
    ∧ ((some false = (none : Option Bool) ∨ some false = some false)
      ∧ evalBoolToken "is_rush" (some false) = "") :=
  ⟨⟨Or.inr rfl, (C5_type_encoder "amount" "double" (fun _ => "0.00")).2.1 (some 0) (Or.inr rfl)⟩,
    ⟨by decide, (C5_type_encoder "qty" "int" (fun _ => "0.00")).2.2.2.2.1 5 (by decide)⟩,
    ⟨Or.inr rfl,
      (C5_type_encoder "is_rush" "boolean" (fun _ => "0.00")).2.2.2.2.2.1 (some false)
        (Or.inr rfl)⟩⟩

/-- C6: the text encoding strips every character of the fixed denylist (which
contains colon, comma, slash, pipe and all four bracket characters), appends
one trailing space to a non-null, non-empty value, and is idempotent: the
character-stripping is idempotent, and re-encoding an already-encoded text
yields the same encoded text. -/
theorem C6_text_encoding (s : String) :
    deniedChar ':' ∧ deniedChar ',' ∧ deniedChar '/' ∧ deniedChar '|'
    ∧ deniedChar '[' ∧ deniedChar ']'
    ∧ deniedChar (Char.ofNat 0x7b) ∧ deniedChar (Char.ofNat 0x7d)
    ∧ (∀ c ∈ (stripDenied s).data, ¬ deniedChar c)
    ∧ stripDenied (stripDenied s) = stripDenied s
    ∧ (s ≠ "" → evalStringToken (some s) = stripDenied s ++ " ")
    ∧ evalStringToken (some (evalStringToken (some s))) = evalStringToken (some s) := by
  refine ⟨by decide, by decide, by decide, by decide, by decide, by decide, by decide, by decide,
    ?_, stripDenied_idem s, ?_, ?_⟩
  · intro c hc
    rw [stripDenied_data] at hc
    have h2 := (List.mem_filter.mp hc).2
    simpa using h2
  · intro hs
    simp [evalStringToken, hs]
  · by_cases hs : s = ""
    · subst hs
      simp [evalStringToken]
    · have h1 : evalStringToken (some s) = stripDenied s ++ " " := by
        simp [evalStringToken, hs]
      rw [h1]
      have hne : stripDenied s ++ " " ≠ "" := by
        intro h
        have hd := congrArg String.data h
        rw [String.data_append] at hd
        simp at hd
      have h2 : evalStringToken (some (stripDenied s ++ " "))
          = stripDenied (stripDenied s ++ " ") ++ " " := by
        simp [evalStringToken, hne]
      rw [h2, stripDenied_append, stripDenied_idem, stripDenied_space, str_append_empty]

/-- Witness for C6 at the spec's example value `"EU;1"`: the semicolon is
stripped and one trailing space is appended. -/
theorem C6_witness :
    ("EU;1" : String) ≠ ""
    ∧ evalStringToken (some "EU;1") = stripDenied "EU;1" ++ " " :=
  ⟨by decide, (C6_text_encoding "EU;1").2.2.2.2.2.2.2.2.2.2.1 (by decide)⟩

theorem col_sql_list_eq_none (l : List Col) (c : Col) (hc : c ∈ l)
    (hbad : col_sql c.1 c.2 = none) : col_sql_list l = none := by
  induction l with
  | nil => cases hc
  | cons a t ih =>
    rcases List.mem_cons.mp hc with rfl | hmem
    · unfold col_sql_list
      rw [hbad]
    · unfold col_sql_list
      cases h1 : col_sql a.1 a.2 with
      | none => rfl
      | some s => simp [ih hmem]

theorem featuresetOf_eq_none (g : Groups) (p : String × List Col) (hp : p ∈ g)
    (hbad : col_sql_list p.2 = none) : featuresetOf g = none := by
  induction g with
  | nil => cases hp
  | cons a t ih =>
    obtain ⟨ns, cl⟩ := a
    rcases List.mem_cons.mp hp with rfl | hmem
    · unfold featuresetOf
      rw [hbad]
    · unfold featuresetOf
      cases h1 : col_sql_list cl with
      | none => rfl
      | some fs => simp [ih hmem]

theorem gen_sql_eq_none_of_bad (inp : HiveToVWInput) (cols : List Col) (c : Col)
    (hc : c ∈ cols) (hassign : assign inp c.1 ≠ none) (hbad : col_sql c.1 c.2 = none) :
    gen_sql inp cols = none := by
  obtain ⟨ns, hns⟩ := Option.ne_none_iff_exists'.mp hassign
  have hmemf : c ∈ dget (get_ns_groups inp cols) ns := by
    rw [dget_get_ns_groups]
    exact List.mem_filter.mpr ⟨hc, by simp [hns]⟩
  cases hg : pyDictGet (get_ns_groups inp cols) ns with
  | none => simp [dget, hg] at hmemf
  | some l =>
    have hentry : (ns, l) ∈ get_ns_groups inp cols := pyDictGet_mem _ _ _ hg
    have hl : c ∈ l := by simpa [dget, hg] using hmemf
    have h1 : col_sql_list l = none := col_sql_list_eq_none l c hl hbad
    have h2 : featuresetOf (get_ns_groups inp cols) = none :=
      featuresetOf_eq_none _ (ns, l) hentry h1
    have h3 : col_ns (get_ns_groups inp cols) = none := by simp [col_ns, h2]
    simp [gen_sql, assemble_sql, h3]

/-- C2 (amended): a column whose declared type has no encoding rule makes the
encoder raise its unsupported-type error — the bare `NotImplementedError`,
which carries no column or type name — and the run aborts before the
materialization subprocess is spawned; the DDL subprocess of
`create_dest_table`, however, has already run by then, so exactly one query
was handed to the engine, not zero. -/
theorem C2_unsupported_type (inp : HiveToVWInput) (cols : List Col)
    (engine : String → Except Unit (Int × List String)) (tmp1 tmp2 destLoc : String)
    (c : Col) (hc : c ∈ cols) (hassign : assign inp c.1 ≠ none)
    (hbad : col_sql c.1 c.2 = none) (code : Int) (lines : List String)
    (hddl : engine (destTableSql inp) = Except.ok (code, lines)) :
    (pipelineRun inp cols engine tmp1 tmp2 destLoc).queries = [destTableSql inp]
    ∧ (pipelineRun inp cols engine tmp1 tmp2 destLoc).result
        = Except.error PyErr.notImplementedError := by
  have hgen := gen_sql_eq_none_of_bad inp cols c hc hassign hbad
  constructor <;> simp [pipelineRun, run_cli, hqlWithSchema, hddl, hgen]

/-- Witness for C2 (amended) at the example schema extended with a
`struct<a:int>` column. -/
theorem C2_witness :
    (("features", "struct<a:int>") : Col) ∈ exColsBad
    ∧ assign exInp "features" ≠ none
    ∧ col_sql "features" "struct<a:int>" = none
    ∧ ((pipelineRun exInp exColsBad engineOk "t1" "t2" "loc").queries = [destTableSql exInp]
      ∧ (pipelineRun exInp exColsBad engineOk "t1" "t2" "loc").result
          = Except.error PyErr.notImplementedError) :=
  ⟨by decide, by decide, by decide,
    C2_unsupported_type exInp exColsBad engineOk "t1" "t2" "loc"
      ("features", "struct<a:int>") (by decide) (by decide) (by decide) 0 ["OK\n"] rfl⟩

/-- C2 counterexample: on a schema with an unsupported column type, the run
raises the unsupported-type error only after the destination-table DDL
subprocess was already spawned (the engine received one query, not zero, when
the run aborted), and the raised error value is identical for two different
offending columns with different names and types, so it cannot name the
offending column or its type. -/
theorem C2_counterexample :
    (pipelineRun exInp exColsBad engineOk "t1" "t2" "loc").queries.length = 1
    ∧ (pipelineRun exInp exColsBad engineOk "t1" "t2" "loc").result
        = Except.error PyErr.notImplementedError
    ∧ (pipelineRun exInp exColsBad engineOk "t1" "t2" "loc").result
        = (pipelineRun exInp exColsBad2 engineOk "t1" "t2" "loc").result := by
  exact ⟨rfl, rfl, rfl⟩

/-- C3 (amended): when the subprocess exits non-zero, `run_cli` logs the
failing query text and the exit code at error level, raises nothing, and
returns only the accumulated combined output string — the exit code is not
part of the return value. -/
theorem C3_nonzero_exit (hql : String) (schema : Option String) (verbose : Bool)
    (tmpName : String) (engine : String → Except Unit (Int × List String))
    (code : Int) (lines : List String)
    (hrun : engine (hqlWithSchema hql schema) = Except.ok (code, lines))
    (hcode : code ≠ 0) :
    (run_cli hql schema verbose tmpName engine).ret = Except.ok (String.join lines)
    ∧ LogEvent.error "Problem when running:" ∈ (run_cli hql schema verbose tmpName engine).logs
    ∧ LogEvent.error (hqlWithSchema hql schema) ∈ (run_cli hql schema verbose tmpName engine).logs
    ∧ LogEvent.error ("Command returned " ++ toString code)
        ∈ (run_cli hql schema verbose tmpName engine).logs := by
  refine ⟨?_, ?_, ?_, ?_⟩ <;> simp [run_cli, hrun, hcode]

/-- Witness for C3 (amended): exit code 2 with one output line. -/
theorem C3_witness :
    ((2 : Int) ≠ 0)
    ∧ ((run_cli "SELECT 1" none true "t"
          (fun _ => Except.ok ((2 : Int), ["syntax error at line 4"]))).ret
        = Except.ok (String.join ["syntax error at line 4"])
      ∧ LogEvent.error "Problem when running:"
          ∈ (run_cli "SELECT 1" none true "t"
              (fun _ => Except.ok ((2 : Int), ["syntax error at line 4"]))).logs
      ∧ LogEvent.error (hqlWithSchema "SELECT 1" none)
          ∈ (run_cli "SELECT 1" none true "t"
              (fun _ => Except.ok ((2 : Int), ["syntax error at line 4"]))).logs
      ∧ LogEvent.error ("Command returned " ++ toString (2 : Int))
          ∈ (run_cli "SELECT 1" none true "t"
              (fun _ => Except.ok ((2 : Int), ["syntax error at line 4"]))).logs) :=
  ⟨by decide,
    C3_nonzero_exit "SELECT 1" none true "t"
      (fun _ => Except.ok ((2 : Int), ["syntax error at line 4"]))
      2 ["syntax error at line 4"] rfl (by decide)⟩

/-- C3 counterexample: the claim says `run_cli` returns the pair of exit code
and combined output; on exit code 2 with output `["syntax error at line 4"]`
the code returns only the combined output string, and the returned value is
identical when the exit code is 3 instead — so the exit code is not returned
to the caller at all. -/
theorem C3_counterexample :
    (run_cli "SELECT 1" none false "t"
        (fun _ => Except.ok ((2 : Int), ["syntax error at line 4"]))).ret
      = Except.ok "syntax error at line 4"
    ∧ (run_cli "SELECT 1" none false "t"
        (fun _ => Except.ok ((2 : Int), ["syntax error at line 4"]))).ret
      = (run_cli "SELECT 1" none false "t"
          (fun _ => Except.ok ((3 : Int), ["syntax error at line 4"]))).ret := by
  exact ⟨rfl, rfl⟩

/-- C8: the temporary query file is released on every exit path of `run_cli`:
after the call, whether the subprocess succeeded, exited non-zero, or failed
to spawn, the file no longer exists. -/
theorem C8_tmpfile_released (hql : String) (schema : Option String) (verbose : Bool)
    (tmpName : String) (engine : String → Except Unit (Int × List String)) :
    fileExistsAfter (run_cli hql schema verbose tmpName engine).fs tmpName = false := by
  cases h : engine (hqlWithSchema hql schema) with
  | error e => simp [run_cli, h, fileExistsAfter]
  | ok r =>
    obtain ⟨code, lines⟩ := r
    simp [run_cli, h, fileExistsAfter]

/-- C9 (amended): a stage failure that raises a Python exception
short-circuits the remaining stages — a DDL spawn failure surfaces as the
broken handler's `NameError` and stops the run, and an unsupported column
type aborts before the materialization query is run — but a subprocess that
merely exits non-zero is not treated as a stage failure: the pipeline
continues to the materialization query and the destination-location lookup,
and stage results are logged rather than returned. -/
theorem C9_stage_short_circuit (inp : HiveToVWInput) (cols : List Col)
    (engine : String → Except Unit (Int × List String)) (tmp1 tmp2 destLoc : String) :
    (∀ e, engine (destTableSql inp) = Except.error e →
        (pipelineRun inp cols engine tmp1 tmp2 destLoc).queries = [destTableSql inp]
        ∧ (pipelineRun inp cols engine tmp1 tmp2 destLoc).result
            = Except.error (PyErr.nameError "output"))
    ∧ (∀ code lines, engine (destTableSql inp) = Except.ok (code, lines) →
        gen_sql inp cols = none →
        (pipelineRun inp cols engine tmp1 tmp2 destLoc).queries = [destTableSql inp]
        ∧ (pipelineRun inp cols engine tmp1 tmp2 destLoc).result
            = Except.error PyErr.notImplementedError)
    ∧ (∀ code lines q code2 lines2,
        engine (destTableSql inp) = Except.ok (code, lines) → code ≠ 0 →
        gen_sql inp cols = some q → engine q = Except.ok (code2, lines2) →
        (pipelineRun inp cols engine tmp1 tmp2 destLoc).queries = [destTableSql inp, q]
        ∧ (pipelineRun inp cols engine tmp1 tmp2 destLoc).result = Except.ok ()) := by
  refine ⟨?_, ?_, ?_⟩
  · intro e he
    constructor <;> simp [pipelineRun, run_cli, hqlWithSchema, he]
  · intro code lines he hg
    constructor <;> simp [pipelineRun, run_cli, hqlWithSchema, he, hg]
  · intro code lines q code2 lines2 he _hc hg he2
    constructor <;> simp [pipelineRun, run_cli, hqlWithSchema, he, hg, he2]

set_option maxRecDepth 100000 in
/-- Witness for C9 (amended), third part: the DDL subprocess exits 1 for the
example job, yet the materialization query is still executed and the run
completes normally. -/
theorem C9_witness :
    engineDdlFails (destTableSql exInp) = Except.ok ((1 : Int), ["FAILED: Execution Error\n"])
    ∧ ((1 : Int) ≠ 0)
    ∧ gen_sql exInp exCols = some exFinalSql
    ∧ ((pipelineRun exInp exCols engineDdlFails "t1" "t2" "hdfs://dest").queries
          = [destTableSql exInp, exFinalSql]
      ∧ (pipelineRun exInp exCols engineDdlFails "t1" "t2" "hdfs://dest").result
          = Except.ok ()) :=
  ⟨rfl, by decide, rfl,
    (C9_stage_short_circuit exInp exCols engineDdlFails "t1" "t2" "hdfs://dest").2.2
      1 ["FAILED: Execution Error\n"] exFinalSql 0 ["OK\n"] rfl (by decide) rfl rfl⟩

set_option maxRecDepth 100000 in
/-- C9 counterexample: the destination-table creation stage fails (its
subprocess exits 1), yet the materialization query is executed and the
destination-location lookup is reached — two queries were handed to the
engine and the run finishes normally, so the failing stage did not
short-circuit the remaining stages. -/
theorem C9_counterexample :
    (pipelineRun exInp exCols engineDdlFails "t1" "t2" "hdfs://dest").queries.length = 2
    ∧ (pipelineRun exInp exCols engineDdlFails "t1" "t2" "hdfs://dest").result
        = Except.ok () := by
  exact ⟨rfl, rfl⟩

/-- Witness for C4: `region__geo__code` is present in the override mapping of
`exInp4` and splits into three parts, and the override wins. -/
theorem C4_witness :
    ¬ omitted exInp4 "region__geo__code"
    ∧ pyDictGet exInp4.custom_namespaces "region__geo__code" = some "override"
    ∧ 2 < (pySplitDunder "region__geo__code").length
    ∧ assign exInp4 "region__geo__code" = some "override" :=
  ⟨by decide, by decide, by decide,
    (C4_assignment_precedence exInp4 "region__geo__code" (by decide)).1 "override" (by decide)⟩

theorem str_data_empty : ("" : String).data = [] := rfl

theorem str_empty_append (s : String) : "" ++ s = s := by
  apply String.ext
  rw [String.data_append, str_data_empty]
  simp

theorem strContains_self (s : String) : strContains s s :=
  ⟨"", "", by rw [str_append_empty, str_empty_append]⟩

theorem strContains_here (s t : String) : strContains (s ++ t) t :=
  ⟨s, "", by rw [str_append_empty]⟩

theorem strContains_appendR (s t sub : String) (h : strContains s sub) :
    strContains (s ++ t) sub := by
  obtain ⟨a, b, rfl⟩ := h
  exact ⟨a, b ++ t, by simp only [strAppend_assoc]⟩

theorem strContains_appendL (s t sub : String) (h : strContains t sub) :
    strContains (s ++ t) sub := by
  obtain ⟨a, b, rfl⟩ := h
  exact ⟨s ++ a, b, by simp only [strAppend_assoc]⟩

/-- C7: the extraction query selects, per row, the label formatted to four
decimal places with null mapped to 0.0, the constant relevance-weight literal
`' 1.0 '`, the tag column and the assembled feature expression, reads from the
source table, filters to non-null label rows, ANDs in any caller-supplied
extra predicate, and the materialization query wraps the extraction query in
an `INSERT OVERWRITE` on the destination table with an optional LIMIT row
cap; repeated calls on the same inputs yield byte-identical text for both
queries. -/
theorem C7_query_structure (inp : HiveToVWInput) (cols : List Col) (colns : String)
    (hc : col_ns (get_ns_groups inp cols) = some colns) :
    ∃ sel mq : String,
      assemble_sql inp (get_ns_groups inp cols) = some sel
      ∧ gen_sql inp cols = some mq
      ∧ strContains sel
          ("SELECT CONCAT(PRINTF('%.4f', COALESCE(" ++ inp.label_column
            ++ ", 0.0)), ' 1.0 ', " ++ inp.tag_column ++ ", " ++ colns ++ " )")
      ∧ strContains sel ("FROM " ++ inp.src_table)
      ∧ strContains sel ("AND " ++ inp.label_column ++ " IS NOT NULL")
      ∧ (∀ f, inp.filter_sql = some f → f ≠ "" → strContains sel ("AND " ++ f))
      ∧ strContains mq sel
      ∧ strContains mq ("INSERT OVERWRITE TABLE tmp." ++ inp.dst_table_name)
      ∧ (∀ n : Int, inp.limit = some n → n ≠ 0 → strContains mq ("LIMIT " ++ toString n))
      ∧ assemble_sql inp (get_ns_groups inp cols) = assemble_sql inp (get_ns_groups inp cols)
      ∧ gen_sql inp cols = gen_sql inp cols := by
  have hsel : assemble_sql inp (get_ns_groups inp cols)
      = some ("\n            SELECT CONCAT(PRINTF('%.4f', COALESCE(" ++ inp.label_column
        ++ ", 0.0)), ' 1.0 ', " ++ inp.tag_column ++ ", " ++ colns
        ++ " )\n            FROM " ++ inp.src_table
        ++ "\n            WHERE ds > ''\n                AND " ++ inp.label_column
        ++ " IS NOT NULL\n                " ++ pyFilterClause inp.filter_sql
        ++ "\n            ") := by
    unfold assemble_sql
    rw [hc]
  have hmq : gen_sql inp cols
      = some ("\n            SET hive.exec.compress.output=false;\n            SET mapred.reduce.tasks=10;\n            INSERT OVERWRITE TABLE tmp."
        ++ inp.dst_table_name
        ++ "\n            "
        ++ ("\n            SELECT CONCAT(PRINTF('%.4f', COALESCE(" ++ inp.label_column
          ++ ", 0.0)), ' 1.0 ', " ++ inp.tag_column ++ ", " ++ colns
          ++ " )\n            FROM " ++ inp.src_table
          ++ "\n            WHERE ds > ''\n                AND " ++ inp.label_column
          ++ " IS NOT NULL\n                " ++ pyFilterClause inp.filter_sql
          ++ "\n            ")
        ++ "\n            " ++ pyLimitClause inp.limit
        ++ "\n            ;\n        ") := by
    unfold gen_sql
    rw [hsel]
  refine ⟨_, _, hsel, hmq, ?_, ?_, ?_, ?_, ?_, ?_, ?_, rfl, rfl⟩
  · have e1 : ("\n            SELECT CONCAT(PRINTF('%.4f', COALESCE(" : String)
        = "\n            " ++ "SELECT CONCAT(PRINTF('%.4f', COALESCE(" := by decide
    have e2 : (" )\n            FROM " : String) = " )" ++ "\n            FROM " := by decide
    refine ⟨"\n            ",
      "\n            FROM " ++ inp.src_table
        ++ "\n            WHERE ds > ''\n                AND " ++ inp.label_column
        ++ " IS NOT NULL\n                " ++ pyFilterClause inp.filter_sql
        ++ "\n            ", ?_⟩
    rw [e1, e2]
    simp only [strAppend_assoc]
  · have e2b : (" )\n            FROM " : String) = " )\n            " ++ "FROM " := by decide
    refine ⟨"\n            SELECT CONCAT(PRINTF('%.4f', COALESCE(" ++ inp.label_column
      ++ ", 0.0)), ' 1.0 ', " ++ inp.tag_column ++ ", " ++ colns ++ " )\n            ",
      "\n            WHERE ds > ''\n                AND " ++ inp.label_column
        ++ " IS NOT NULL\n                " ++ pyFilterClause inp.filter_sql
        ++ "\n            ", ?_⟩
    rw [e2b]
    simp only [strAppend_assoc]
  · have e3 : ("\n            WHERE ds > ''\n                AND " : String)
        = "\n            WHERE ds > ''\n                " ++ "AND " := by decide
    have e4 : (" IS NOT NULL\n                " : String)
        = " IS NOT NULL" ++ "\n                " := by decide
    refine ⟨"\n            SELECT CONCAT(PRINTF('%.4f', COALESCE(" ++ inp.label_column
      ++ ", 0.0)), ' 1.0 ', " ++ inp.tag_column ++ ", " ++ colns
      ++ " )\n            FROM " ++ inp.src_table
      ++ "\n            WHERE ds > ''\n                ",
      "\n                " ++ pyFilterClause inp.filter_sql ++ "\n            ", ?_⟩
    rw [e3, e4]
    simp only [strAppend_assoc]
  · intro f hf hfne
    rw [hf]
    have hpf : pyFilterClause (some f) = "AND " ++ f := by simp [pyFilterClause, hfne]
    rw [hpf]
    refine ⟨"\n            SELECT CONCAT(PRINTF('%.4f', COALESCE(" ++ inp.label_column
      ++ ", 0.0)), ' 1.0 ', " ++ inp.tag_column ++ ", " ++ colns
      ++ " )\n            FROM " ++ inp.src_table
      ++ "\n            WHERE ds > ''\n                AND " ++ inp.label_column
      ++ " IS NOT NULL\n                ",
      "\n            ", ?_⟩
    simp only [strAppend_assoc]
  · exact strContains_appendR _ _ _ (strContains_appendR _ _ _ (strContains_appendR _ _ _
      (strContains_here _ _)))
  · have e5 : ("\n            SET hive.exec.compress.output=false;\n            SET mapred.reduce.tasks=10;\n            INSERT OVERWRITE TABLE tmp." : String)
        = "\n            SET hive.exec.compress.output=false;\n            SET mapred.reduce.tasks=10;\n            "
          ++ "INSERT OVERWRITE TABLE tmp." := by decide
    refine strContains_appendR _ _ _ (strContains_appendR _ _ _ (strContains_appendR _ _ _
      (strContains_appendR _ _ _ (strContains_appendR _ _ _ ?_))))
    rw [e5, strAppend_assoc]
    exact strContains_appendL _ _ _ (strContains_self _)
  · intro n hn hnne
    rw [hn]
    have hpl : pyLimitClause (some n) = "LIMIT " ++ toString n := by simp [pyLimitClause, hnne]
    rw [hpl]
    exact strContains_appendR _ _ _ (strContains_here _ _)

set_option maxRecDepth 100000 in
/-- Witness for C7 at the example job with a filter predicate and a row cap. -/
theorem C7_witness :
    col_ns (get_ns_groups exInp7 exCols) = some exColNs
    ∧ (∃ sel mq : String,
        assemble_sql exInp7 (get_ns_groups exInp7 exCols) = some sel
        ∧ gen_sql exInp7 exCols = some mq
        ∧ strContains sel
            ("SELECT CONCAT(PRINTF('%.4f', COALESCE(" ++ exInp7.label_column
              ++ ", 0.0)), ' 1.0 ', " ++ exInp7.tag_column ++ ", " ++ exColNs ++ " )")
        ∧ strContains sel ("FROM " ++ exInp7.src_table)
        ∧ strContains sel ("AND " ++ exInp7.label_column ++ " IS NOT NULL")
        ∧ (∀ f, exInp7.filter_sql = some f → f ≠ "" → strContains sel ("AND " ++ f))
        ∧ strContains mq sel
        ∧ strContains mq ("INSERT OVERWRITE TABLE tmp." ++ exInp7.dst_table_name)
        ∧ (∀ n : Int, exInp7.limit = some n → n ≠ 0 → strContains mq ("LIMIT " ++ toString n))
        ∧ assemble_sql exInp7 (get_ns_groups exInp7 exCols)
            = assemble_sql exInp7 (get_ns_groups exInp7 exCols)
        ∧ gen_sql exInp7 exCols = gen_sql exInp7 exCols) :=
  ⟨rfl, C7_query_structure exInp7 exCols exColNs rfl⟩

/-- C10: a present-but-falsy option value behaves exactly like an absent one
at the public interface: a rowLimit of 0 produces no LIMIT fragment and an
empty extra predicate produces no AND fragment, so the generated
materialization query is byte-identical to the one generated with the option
absent. -/
theorem C10_falsy_option_defaults (inp : HiveToVWInput) (cols : List Col) :
    pyLimitClause (some 0) = "" ∧ pyFilterClause (some "") = ""
    ∧ gen_sql { inp with limit := some 0 } cols = gen_sql { inp with limit := none } cols
    ∧ gen_sql { inp with filter_sql := some "" } cols
        = gen_sql { inp with filter_sql := none } cols := by
  exact ⟨rfl, rfl, rfl, rfl⟩

end HiveToVW
